import Mathlib

/-!
Shallow embedding of the AutoFig WebSocket broker (src/socket.ts).

The broker keeps four mutable registries: a channel-membership map, an agent
registry, a per-node lock table and a single doc-lock cell. Connections are
modelled by numeric identifiers; the per-connection mutable attribute
ws.data.agentId is modelled by the connData association list, and the
transport readyState OPEN set by openConns. JavaScript Map objects are
modelled by association lists with insertion-order semantics (set keeps the
position of an existing key, otherwise appends; forEach iterates in order).
Every message handler is a pure function from broker state and inbound frame
to the new state together with the list of outbound frames, each paired with
the connection it is sent to.
-/

namespace AutoFig

abbrev ConnId := Nat

/-- Association-list lookup, mirroring JavaScript Map.get. -/
def lookupA {κ β : Type} [DecidableEq κ] : List (κ × β) → κ → Option β
  | [], _ => none
  | (k, v) :: rest, key => if k = key then some v else lookupA rest key

/-- Association-list update, mirroring JavaScript Map.set: an existing key
keeps its position, a new key is appended at the end. -/
def setA {κ β : Type} [DecidableEq κ] : List (κ × β) → κ → β → List (κ × β)
  | [], key, v => [(key, v)]
  | (k, w) :: rest, key, v =>
      if k = key then (k, v) :: rest else (k, w) :: setA rest key v

/-- Association-list removal, mirroring JavaScript Map.delete. -/
def delA {κ β : Type} [DecidableEq κ] : List (κ × β) → κ → List (κ × β)
  | [], _ => []
  | (k, w) :: rest, key => if k = key then rest else (k, w) :: delA rest key

/-- LockEntry from src/socket.ts: holder, acquisition time, per-grant TTL. -/
structure LockEntry where
  agentId : String
  acquiredAt : Nat
  ttl : Nat
deriving DecidableEq

/-- AgentInfo from src/socket.ts; the owning connection ws is a ConnId. -/
structure AgentInfo where
  agentId : String
  channel : String
  mode : String
  connectedAt : Nat
  ws : ConnId
deriving DecidableEq

/-- Outbound frames of the broker, as JSON objects tagged by their type
field. Payloads are opaque strings. -/
inductive Frame where
  | system (message : String) (channel : Option String)
  | systemResult (id : Option String) (result : String) (channel : String)
  | errorF (id : Option String) (message : String)
  | agentRegistered (agentId : String) (channel : String) (mode : Option String)
  | agentDisconnected (agentId : String)
  | lockAcquired (id : Option String) (lockType : String) (nodeId : Option String)
  | lockDenied (id : Option String) (lockType : String) (nodeId : Option String)
      (heldBy : String) (reason : Option String)
  | lockReleased (id : Option String) (lockType : String) (nodeId : Option String)
  | broadcastMsg (message : Option String) (sender : String) (channel : String)
  | progressUpdate (message : Option String) (id : Option String) (channel : String)
deriving DecidableEq

/-- The whole mutable state of the broker process. -/
structure ServerState where
  channels : List (String × List ConnId)
  agents : List (String × AgentInfo)
  nodeLocks : List (String × LockEntry)
  docLock : Option LockEntry
  connData : List (ConnId × String)
  openConns : List ConnId
deriving DecidableEq

/-- Inbound frame: the fields destructured by the message handler. Absent
JSON fields are none. -/
structure InMsg where
  type : String
  id : Option String := none
  channel : Option String := none
  agentId : Option String := none
  lockType : Option String := none
  nodeId : Option String := none
  ttl : Option Nat := none
  mode : Option String := none
  targetChannel : Option String := none
  message : Option String := none
deriving DecidableEq

def DEFAULT_LOCK_TTL_MS : Nat := 60000

/-- Template-string rendering of a possibly-undefined field, as in
the Unknown lockType error message. -/
def optStr : Option String → String
  | none => "undefined"
  | some s => s

/-- Line 296: effectiveTtl = ttl or DEFAULT_LOCK_TTL_MS, where any falsy
ttl (absent, null, or 0) selects the default. -/
def effectiveTtl : Option Nat → Nat
  | none => DEFAULT_LOCK_TTL_MS
  | some t => if t = 0 then DEFAULT_LOCK_TTL_MS else t

/-- Lines 291-294: tag the connection with agentId unless already tagged
with a truthy value. -/
def tagIfUnset (cd : List (ConnId × String)) (conn : ConnId) (aid : String) :
    List (ConnId × String) :=
  match lookupA cd conn with
  | none => setA cd conn aid
  | some t => if t = "" then setA cd conn aid else cd

/-- Lines 30-41: remove every node lock held by agentId and clear the doc
lock if it is held by agentId. -/
def releaseAgentLocks (st : ServerState) (agentId : String) : ServerState :=
  { st with
    nodeLocks := st.nodeLocks.filter (fun p => p.2.agentId ≠ agentId),
    docLock := match st.docLock with
      | some dl => if dl.agentId = agentId then none else some dl
      | none => none }

/-- Lines 324-334: the Free/self/other logic of a node-lock grant, reached
only after the doc-lock pre-emption check. -/
def acquireNode (st : ServerState) (conn : ConnId) (now : Nat)
    (id : Option String) (a nid : String) (eTtl : Nat) :
    ServerState × List (ConnId × Frame) :=
  match lookupA st.nodeLocks nid with
  | some e =>
      if e.agentId ≠ a then
        (st, [(conn, Frame.lockDenied id "node" (some nid) e.agentId none)])
      else
        ({ st with nodeLocks := setA st.nodeLocks nid ⟨a, now, eTtl⟩ },
         [(conn, Frame.lockAcquired id "node" (some nid))])
  | none =>
      ({ st with nodeLocks := setA st.nodeLocks nid ⟨a, now, eTtl⟩ },
       [(conn, Frame.lockAcquired id "node" (some nid))])

/-- Lines 284-339: the lock:acquire handler. -/
def handleLockAcquire (st : ServerState) (conn : ConnId) (now : Nat)
    (id agentId lockType nodeId : Option String) (ttl : Option Nat) :
    ServerState × List (ConnId × Frame) :=
  match agentId with
  | none => (st, [(conn, Frame.errorF id "agentId is required")])
  | some a =>
    if a = "" then (st, [(conn, Frame.errorF id "agentId is required")])
    else
      let st1 := { st with connData := tagIfUnset st.connData conn a }
      let eTtl := effectiveTtl ttl
      if lockType = some "doc" then
        match st1.docLock with
        | none =>
            ({ st1 with docLock := some ⟨a, now, eTtl⟩ },
             [(conn, Frame.lockAcquired id "doc" none)])
        | some dl =>
            if dl.agentId = a then
              ({ st1 with docLock := some ⟨a, now, eTtl⟩ },
               [(conn, Frame.lockAcquired id "doc" none)])
            else
              (st1, [(conn, Frame.lockDenied id "doc" none dl.agentId none)])
      else if lockType = some "node" then
        match nodeId with
        | none => (st1, [(conn, Frame.errorF id "nodeId is required for node locks")])
        | some nid =>
          if nid = "" then
            (st1, [(conn, Frame.errorF id "nodeId is required for node locks")])
          else
            match st1.docLock with
            | some dl =>
                if dl.agentId ≠ a then
                  (st1, [(conn, Frame.lockDenied id "node" (some nid)
                            dl.agentId (some "doc-locked"))])
                else acquireNode st1 conn now id a nid eTtl
            | none => acquireNode st1 conn now id a nid eTtl
      else
        (st1, [(conn, Frame.errorF id ("Unknown lockType: " ++ optStr lockType))])

/-- Lines 341-362: the lock:release handler. Only a matching holder actually
removes the entry; the reply is lock:released either way. -/
def handleLockRelease (st : ServerState) (conn : ConnId)
    (id agentId lockType nodeId : Option String) :
    ServerState × List (ConnId × Frame) :=
  if lockType = some "doc" then
    match st.docLock with
    | some dl =>
        if agentId = some dl.agentId then
          ({ st with docLock := none }, [(conn, Frame.lockReleased id "doc" none)])
        else (st, [(conn, Frame.lockReleased id "doc" none)])
    | none => (st, [(conn, Frame.lockReleased id "doc" none)])
  else if lockType = some "node" then
    match nodeId with
    | none => (st, [(conn, Frame.lockReleased id "node" none)])
    | some nid =>
      match lookupA st.nodeLocks nid with
      | some e =>
          if agentId = some e.agentId then
            ({ st with nodeLocks := delA st.nodeLocks nid },
             [(conn, Frame.lockReleased id "node" (some nid))])
          else (st, [(conn, Frame.lockReleased id "node" (some nid))])
      | none => (st, [(conn, Frame.lockReleased id "node" (some nid))])
  else
    (st, [(conn, Frame.errorF id ("Unknown lockType: " ++ optStr lockType))])

/-- Lines 497-509: the 5-second lock expiry sweep. An entry is removed
exactly when now minus acquiredAt strictly exceeds its ttl. -/
def sweep (st : ServerState) (now : Nat) : ServerState :=
  { st with
    nodeLocks := st.nodeLocks.filter
      (fun p => ¬ (now - p.2.acquiredAt > p.2.ttl)),
    docLock := match st.docLock with
      | some dl => if now - dl.acquiredAt > dl.ttl then none else some dl
      | none => none }

/-- Lines 201-249: the join handler. Channel creation is implicit, adding
to the member set is idempotent, and the other current open members are
notified. -/
def handleJoin (st : ServerState) (conn : ConnId)
    (channel id : Option String) : ServerState × List (ConnId × Frame) :=
  match channel with
  | none => (st, [(conn, Frame.errorF none "Channel name is required")])
  | some ch =>
    if ch = "" then (st, [(conn, Frame.errorF none "Channel name is required")])
    else
      let members := (lookupA st.channels ch).getD []
      let members2 := if conn ∈ members then members else members ++ [conn]
      ({ st with channels := setA st.channels ch members2 },
       [(conn, Frame.system ("Joined channel: " ++ ch) (some ch)),
        (conn, Frame.systemResult id ("Connected to channel: " ++ ch) ch)] ++
         (members2.filter (fun c => c ≠ conn ∧ c ∈ st.openConns)).map
           (fun c => (c, Frame.system "A new user has joined the channel" (some ch))))

/-- Open members of the figma-bridge administrative channel. -/
def bridgeRecipients (chans : List (String × List ConnId))
    (opens : List ConnId) : List ConnId :=
  match lookupA chans "figma-bridge" with
  | some members => members.filter (fun c => c ∈ opens)
  | none => []

/-- Lines 251-282: the agent:register handler. Registration overwrites,
tags the connection, confirms to the sender and broadcasts to the
figma-bridge administrative channel. -/
def handleRegister (st : ServerState) (conn : ConnId) (now : Nat)
    (agentId channel mode : Option String) : ServerState × List (ConnId × Frame) :=
  match agentId, channel with
  | some a, some ch =>
    if a = "" ∨ ch = "" then
      (st, [(conn, Frame.errorF none "agentId and channel are required")])
    else
      let md := match mode with
        | none => "read-write"
        | some m => if m = "" then "read-write" else m
      ({ st with
          connData := setA st.connData conn a,
          agents := setA st.agents a ⟨a, ch, md, now, conn⟩ },
       (conn, Frame.agentRegistered a ch none) ::
         (bridgeRecipients st.channels st.openConns).map
           (fun c => (c, Frame.agentRegistered a ch (some md))))
  | _, _ => (st, [(conn, Frame.errorF none "agentId and channel are required")])

/-- Lines 364-384: the directed handler. The sender need not be a member of
the target channel; silent no-op on a missing field, unknown channel or
empty member set. -/
def handleDirected (st : ServerState) (_conn : ConnId)
    (targetChannel payload : Option String) : ServerState × List (ConnId × Frame) :=
  match targetChannel with
  | none => (st, [])
  | some tc =>
    if tc = "" then (st, [])
    else
      match lookupA st.channels tc with
      | none => (st, [])
      | some members =>
        if members = [] then (st, [])
        else
          (st, (members.filter (fun c => c ∈ st.openConns)).map
            (fun c => (c, Frame.broadcastMsg payload "plugin" tc)))

/-- Lines 387-429: the message handler. Requires prior membership, else an
error to the sender only; relays to every other open member. -/
def handleBroadcastMessage (st : ServerState) (conn : ConnId)
    (channel payload : Option String) : ServerState × List (ConnId × Frame) :=
  match channel with
  | none => (st, [(conn, Frame.errorF none "Channel name is required")])
  | some ch =>
    if ch = "" then (st, [(conn, Frame.errorF none "Channel name is required")])
    else
      match lookupA st.channels ch with
      | none => (st, [(conn, Frame.errorF none "You must join the channel first")])
      | some members =>
        if conn ∈ members then
          (st, (members.filter (fun c => c ≠ conn ∧ c ∈ st.openConns)).map
            (fun c => (c, Frame.broadcastMsg payload "peer" ch)))
        else
          (st, [(conn, Frame.errorF none "You must join the channel first")])

/-- Lines 431-449: the progress_update handler. A missing channel or a
sender that has not joined is a silent no-op; otherwise the payload is
relayed to every other open member. -/
def handleProgressUpdate (st : ServerState) (conn : ConnId)
    (channel id payload : Option String) : ServerState × List (ConnId × Frame) :=
  match channel with
  | none => (st, [])
  | some ch =>
    if ch = "" then (st, [])
    else
      match lookupA st.channels ch with
      | none => (st, [])
      | some members =>
        if conn ∈ members then
          (st, (members.filter (fun c => c ≠ conn ∧ c ∈ st.openConns)).map
            (fun c => (c, Frame.progressUpdate payload id ch)))
        else (st, [])

/-- Lines 189-453: the websocket.message dispatcher. A frame whose type
matches none of the handled types falls through with no reply and no state
change. -/
def handleMessage (st : ServerState) (conn : ConnId) (now : Nat) (m : InMsg) :
    ServerState × List (ConnId × Frame) :=
  if m.type = "join" then handleJoin st conn m.channel m.id
  else if m.type = "agent:register" then
    handleRegister st conn now m.agentId m.channel m.mode
  else if m.type = "lock:acquire" then
    handleLockAcquire st conn now m.id m.agentId m.lockType m.nodeId m.ttl
  else if m.type = "lock:release" then
    handleLockRelease st conn m.id m.agentId m.lockType m.nodeId
  else if m.type = "directed" then handleDirected st conn m.targetChannel m.message
  else if m.type = "message" then handleBroadcastMessage st conn m.channel m.message
  else if m.type = "progress_update" then
    handleProgressUpdate st conn m.channel m.id m.message
  else (st, [])

/-- Removal of a connection from every member set (lines 457-460). -/
def removeFromChannels (chans : List (String × List ConnId)) (conn : ConnId) :
    List (String × List ConnId) :=
  chans.map (fun p => (p.1, p.2.filter (fun c => c ≠ conn)))

/-- Lines 484-491: if no registry entry matched the closing connection,
release the locks of the agentId tagged onto the connection, when truthy. -/
def closeFallback (st : ServerState) (cd : List (ConnId × String))
    (conn : ConnId) (matchedIds : List String) : ServerState :=
  if matchedIds.isEmpty then
    match lookupA cd conn with
    | some aid => if aid = "" then st else releaseAgentLocks st aid
    | none => st
  else st

/-- Lines 454-492: the websocket.close handler. It removes the connection
from every channel silently, deletes and releases every registry entry
owned by this connection (broadcasting agent:disconnected to the
administrative channel for each), and otherwise falls back to releasing the
locks of the tagged agentId. -/
def handleClose (st : ServerState) (conn : ConnId) :
    ServerState × List (ConnId × Frame) :=
  let chans := removeFromChannels st.channels conn
  let matchedIds := (st.agents.filter (fun p => p.2.ws = conn)).map (fun p => p.1)
  let st1 : ServerState :=
    { st with
      channels := chans,
      agents := st.agents.filter (fun p => p.2.ws ≠ conn),
      openConns := st.openConns.filter (fun c => c ≠ conn) }
  let st2 := matchedIds.foldl releaseAgentLocks st1
  let fs := matchedIds.flatMap (fun aid =>
    (bridgeRecipients chans st.openConns).map
      (fun c => (c, Frame.agentDisconnected aid)))
  (closeFallback st2 st.connData conn matchedIds, fs)

/-- Lines 53-79: the cleanup installed by handleConnection as an override
of the ws.close method. It releases the tagged agent locks, removes the
connection from every channel and notifies the remaining open members that
a user has left. The runtime fires the websocket.close handler on
disconnect, not this overridden method, so this path is unreachable. -/
def wsCloseOverride (st : ServerState) (conn : ConnId) :
    ServerState × List (ConnId × Frame) :=
  let st1 := match lookupA st.connData conn with
    | some a => if a = "" then st else releaseAgentLocks st a
    | none => st
  let fs := st1.channels.flatMap (fun p =>
    if conn ∈ p.2 then
      (p.2.filter (fun c => c ≠ conn ∧ c ∈ st.openConns)).map
        (fun c => (c, Frame.system "A user has left the channel" (some p.1)))
    else [])
  ({ st1 with channels := removeFromChannels st1.channels conn }, fs)

/-- agentId a holds no lock, node or doc, in state st. -/
def lockFreeFor (st : ServerState) (a : String) : Prop :=
  (∀ p ∈ st.nodeLocks, p.2.agentId ≠ a) ∧
  (∀ dl, st.docLock = some dl → dl.agentId ≠ a)

instance (st : ServerState) (a : String) : Decidable (lockFreeFor st a) := by
  unfold lockFreeFor; infer_instance

/-! ### Concrete states used by witnesses and counterexamples -/

/-- Agent A holds the doc lock and one node lock m; used for C1. -/
def stC1 : ServerState :=
  ⟨[], [], [("m", ⟨"A", 0, 60000⟩)], some ⟨"A", 5, 60000⟩, [], [1, 2]⟩

/-- Empty broker state. -/
def stEmpty : ServerState := ⟨[], [], [], none, [], [1, 2]⟩

/-- Reachable state for the C3 counterexample: connection 1 once registered
agents b and c in that order (so its tag is c), connection 2 then
re-registered c (overwriting the registry entry) and disconnected (deleting
it), after which connection 1 acquired node lock n as agent c. -/
def stC3cex : ServerState :=
  ⟨[], [("b", ⟨"b", "ch", "read-write", 0, 1⟩)],
   [("n", ⟨"c", 4, 60000⟩)], none, [(1, "c"), (2, "c")], [1]⟩

/-- Registered agent a on connection 1 holding a node lock and the doc
lock, with an open bridge observer 2; used by the C3 witness. -/
def stC3w : ServerState :=
  ⟨[("figma-bridge", [1, 2]), ("ch", [1])],
   [("a", ⟨"a", "ch", "read-write", 0, 1⟩)],
   [("n", ⟨"a", 0, 60000⟩)], some ⟨"a", 0, 60000⟩, [(1, "a")], [1, 2]⟩

/-- Agent a holds node lock n and the doc lock; used by the C4 witness. -/
def stC4w : ServerState :=
  ⟨[], [], [("n", ⟨"a", 0, 60000⟩)], some ⟨"a", 0, 60000⟩, [], [1, 2]⟩

/-- Node lock n held by b is long expired at time 100 (doc lock free);
used by the C5 witness. -/
def stC5w : ServerState :=
  ⟨[], [], [("n", ⟨"b", 0, 10⟩)], none, [], [1, 2]⟩

/-- The doc lock held by b is long expired at time 100; used by the C5
witness. -/
def stC5doc : ServerState :=
  ⟨[], [], [], some ⟨"b", 0, 10⟩, [], [1, 2]⟩

/-- Channel ch with two open members 1 and 2 and no agents; used for C6. -/
def stC6 : ServerState := ⟨[("ch", [1, 2])], [], [], none, [], [1, 2]⟩

/-- Channel ch whose only member is connection 2, while connection 1 is
open but has not joined; used for C7. -/
def stC7 : ServerState := ⟨[("ch", [2])], [], [], none, [], [1, 2]⟩

/-- Channel ch with open members 1 and 2; used by the C7 witness. -/
def stC7w : ServerState := ⟨[("ch", [1, 2])], [], [], none, [], [1, 2]⟩

/-- Agent a already holds node lock n while agent b holds the doc lock;
the C9 counterexample state. -/
def stC9cex : ServerState :=
  ⟨[], [], [("n", ⟨"a", 5, 60000⟩)], some ⟨"b", 6, 60000⟩, [(1, "a")], [1]⟩

/-- Agent a holds both the doc lock and node lock n; used by the C9
witness. -/
def stC9w : ServerState :=
  ⟨[], [], [("n", ⟨"a", 3, 60000⟩)], some ⟨"a", 2, 60000⟩, [], [1]⟩

/-! ### Association-list lemmas -/

section AssocLemmas

variable {κ β : Type} [DecidableEq κ]

theorem lookupA_setA_self (l : List (κ × β)) (k : κ) (v : β) :
    lookupA (setA l k v) k = some v := by
  induction l with
  | nil => simp [setA, lookupA]
  | cons hd tl ih =>
    obtain ⟨k1, v1⟩ := hd
    by_cases h : k1 = k
    · subst h; simp [setA, lookupA]
    · simp [setA, lookupA, h, ih]

theorem lookupA_setA_ne (l : List (κ × β)) (k k2 : κ) (v : β) (h : k2 ≠ k) :
    lookupA (setA l k v) k2 = lookupA l k2 := by
  induction l with
  | nil => simp [setA, lookupA, Ne.symm h]
  | cons hd tl ih =>
    obtain ⟨k1, v1⟩ := hd
    by_cases h1 : k1 = k
    · subst h1; simp [setA, lookupA, Ne.symm h]
    · simp [setA, lookupA, h1, ih]

theorem delA_setA_of_none (l : List (κ × β)) (k : κ) (v : β)
    (h : lookupA l k = none) : delA (setA l k v) k = l := by
  induction l with
  | nil => simp [setA, delA]
  | cons hd tl ih =>
    obtain ⟨k1, v1⟩ := hd
    by_cases h1 : k1 = k
    · subst h1; simp [lookupA] at h
    · simp [lookupA, h1] at h
      simp [setA, delA, h1, ih h]

theorem lookupA_eq_none_of_keys (l : List (κ × β)) (k : κ)
    (h : ∀ p ∈ l, p.1 ≠ k) : lookupA l k = none := by
  induction l with
  | nil => rfl
  | cons hd tl ih =>
    simp only [List.mem_cons, forall_eq_or_imp] at h
    simp [lookupA, h.1, ih h.2]

theorem lookupA_filter_val (l : List (κ × β)) (q : β → Bool) (k : κ)
    (hnd : (l.map Prod.fst).Nodup) :
    lookupA (l.filter (fun p => q p.2)) k
      = match lookupA l k with
        | some v => if q v then some v else none
        | none => none := by
  induction l with
  | nil => simp [lookupA]
  | cons hd tl ih =>
    obtain ⟨k1, v1⟩ := hd
    simp only [List.map_cons, List.nodup_cons] at hnd
    by_cases hk : k1 = k
    · subst hk
      by_cases hq : q v1
      · simp [List.filter_cons, hq, lookupA]
      · have : lookupA (tl.filter (fun p => q p.2)) k1 = none := by
          apply lookupA_eq_none_of_keys
          intro p hp hcontra
          exact hnd.1 (hcontra ▸ List.mem_map_of_mem Prod.fst (List.mem_of_mem_filter hp))
        simp [List.filter_cons, hq, lookupA, this]
    · by_cases hq : q v1
      · simp [List.filter_cons, hq, lookupA, hk, ih hnd.2]
      · simp [List.filter_cons, hq, lookupA, hk, ih hnd.2]

end AssocLemmas

/-! ### Lock-release helper lemmas -/

theorem releaseAgentLocks_free (st : ServerState) (a : String) :
    lockFreeFor (releaseAgentLocks st a) a := by
  constructor
  · intro p hp
    simp only [releaseAgentLocks, List.mem_filter] at hp
    simpa using hp.2
  · intro dl hdl
    simp only [releaseAgentLocks] at hdl
    cases h : st.docLock with
    | none => simp [h] at hdl
    | some d =>
      simp only [h] at hdl
      by_cases hd : d.agentId = a
      · simp [hd] at hdl
      · simp only [if_neg hd] at hdl
        injection hdl with h2
        subst h2; exact hd

theorem releaseAgentLocks_mono (st : ServerState) (a b : String)
    (h : lockFreeFor st a) : lockFreeFor (releaseAgentLocks st b) a := by
  constructor
  · intro p hp
    exact h.1 p (List.mem_of_mem_filter hp)
  · intro dl hdl
    simp only [releaseAgentLocks] at hdl
    cases hs : st.docLock with
    | none => simp [hs] at hdl
    | some d =>
      simp only [hs] at hdl
      by_cases hd : d.agentId = b
      · simp [hd] at hdl
      · simp only [if_neg hd] at hdl
        injection hdl with h2
        subst h2; exact h.2 d hs

theorem releaseAgentLocks_agents (st : ServerState) (a : String) :
    (releaseAgentLocks st a).agents = st.agents := rfl

theorem releaseAgentLocks_channels (st : ServerState) (a : String) :
    (releaseAgentLocks st a).channels = st.channels := rfl

theorem foldl_release_agents :
    ∀ (ids : List String) (st : ServerState),
      (ids.foldl releaseAgentLocks st).agents = st.agents
  | [], _ => rfl
  | i :: rest, st => foldl_release_agents rest (releaseAgentLocks st i)

theorem foldl_release_channels :
    ∀ (ids : List String) (st : ServerState),
      (ids.foldl releaseAgentLocks st).channels = st.channels
  | [], _ => rfl
  | i :: rest, st => foldl_release_channels rest (releaseAgentLocks st i)

theorem foldl_release_mono :
    ∀ (ids : List String) (st : ServerState) (a : String),
      lockFreeFor st a → lockFreeFor (ids.foldl releaseAgentLocks st) a
  | [], _, _, h => h
  | i :: rest, st, a, h =>
      foldl_release_mono rest (releaseAgentLocks st i) a
        (releaseAgentLocks_mono st a i h)

theorem foldl_release_free :
    ∀ (ids : List String) (st : ServerState) (a : String),
      a ∈ ids → lockFreeFor (ids.foldl releaseAgentLocks st) a
  | [], _, a, ha => absurd ha (List.not_mem_nil a)
  | i :: rest, st, a, ha => by
      rcases List.mem_cons.1 ha with h | h
      · subst h
        exact foldl_release_mono rest (releaseAgentLocks st a) a
          (releaseAgentLocks_free st a)
      · exact foldl_release_free rest (releaseAgentLocks st i) a h

theorem closeFallback_mono (st : ServerState) (cd : List (ConnId × String))
    (conn : ConnId) (ids : List String) (a : String) (h : lockFreeFor st a) :
    lockFreeFor (closeFallback st cd conn ids) a := by
  unfold closeFallback
  split
  · split
    · split
      · exact h
      · exact releaseAgentLocks_mono st a _ h
    · exact h
  · exact h

theorem closeFallback_agents (st : ServerState) (cd : List (ConnId × String))
    (conn : ConnId) (ids : List String) :
    (closeFallback st cd conn ids).agents = st.agents := by
  unfold closeFallback
  split
  · split
    · split <;> rfl
    · rfl
  · rfl

theorem closeFallback_channels (st : ServerState) (cd : List (ConnId × String))
    (conn : ConnId) (ids : List String) :
    (closeFallback st cd conn ids).channels = st.channels := by
  unfold closeFallback
  split
  · split
    · split <;> rfl
    · rfl
  · rfl

/-! ### Single-step behaviour of the lock handlers -/

theorem acquire_free_step (st : ServerState) (conn : ConnId) (now : Nat)
    (id : Option String) (a nid : String) (ttl : Option Nat)
    (ha : a ≠ "") (hnid : nid ≠ "") (hdoc : st.docLock = none)
    (hfree : lookupA st.nodeLocks nid = none) :
    handleLockAcquire st conn now id (some a) (some "node") (some nid) ttl
      = ({ st with
            connData := tagIfUnset st.connData conn a,
            nodeLocks := setA st.nodeLocks nid ⟨a, now, effectiveTtl ttl⟩ },
         [(conn, Frame.lockAcquired id "node" (some nid))]) := by
  simp [handleLockAcquire, acquireNode, ha, hnid, hdoc, hfree]

theorem acquire_held_step (st : ServerState) (conn : ConnId) (now : Nat)
    (id : Option String) (a b nid : String) (ttl : Option Nat) (e : LockEntry)
    (ha : a ≠ "") (hnid : nid ≠ "") (hdoc : st.docLock = none)
    (hheld : lookupA st.nodeLocks nid = some e) (hb : e.agentId = b)
    (hne : b ≠ a) :
    handleLockAcquire st conn now id (some a) (some "node") (some nid) ttl
      = ({ st with connData := tagIfUnset st.connData conn a },
         [(conn, Frame.lockDenied id "node" (some nid) b none)]) := by
  subst hb
  simp [handleLockAcquire, acquireNode, ha, hnid, hdoc, hheld, hne]

theorem acquire_doc_held_step (st : ServerState) (conn : ConnId) (now : Nat)
    (id : Option String) (a : String) (ttl : Option Nat) (dl : LockEntry)
    (ha : a ≠ "") (hdoc : st.docLock = some dl) (hne : dl.agentId ≠ a) :
    handleLockAcquire st conn now id (some a) (some "doc") none ttl
      = ({ st with connData := tagIfUnset st.connData conn a },
         [(conn, Frame.lockDenied id "doc" none dl.agentId none)]) := by
  simp [handleLockAcquire, ha, hdoc, hne]

theorem release_holder_step (st : ServerState) (conn : ConnId)
    (id : Option String) (a nid : String) (e : LockEntry)
    (hheld : lookupA st.nodeLocks nid = some e) (hb : e.agentId = a) :
    handleLockRelease st conn id (some a) (some "node") (some nid)
      = ({ st with nodeLocks := delA st.nodeLocks nid },
         [(conn, Frame.lockReleased id "node" (some nid))]) := by
  subst hb
  simp [handleLockRelease, hheld]

/-! ### Claim theorems -/

/-- C1: while the doc lock is held by agent A, a node lock:acquire from any
other agent B is answered lock:denied with reason doc-locked and heldBy A;
the node-lock table (and the doc lock) is untouched, the only state change
being the auto-tagging of the requesting connection; and taking or holding
the doc lock never revokes already-granted node locks. -/
theorem C1_doc_lock_preempts_node_acquire
    (st : ServerState) (conn : ConnId) (now : Nat) (id : Option String)
    (A b nid : String) (ttl : Option Nat) (dl : LockEntry)
    (hdoc : st.docLock = some dl) (hA : dl.agentId = A)
    (hb : b ≠ "") (hne : b ≠ A) (hnid : nid ≠ "") :
    handleLockAcquire st conn now id (some b) (some "node") (some nid) ttl
      = ({ st with connData := tagIfUnset st.connData conn b },
         [(conn, Frame.lockDenied id "node" (some nid) A (some "doc-locked"))])
    ∧ ∀ (id2 a2 nid2 : Option String) (ttl2 : Option Nat),
        (handleLockAcquire st conn now id2 a2 (some "doc") nid2 ttl2).1.nodeLocks
          = st.nodeLocks := by
  subst hA
  have hAb : dl.agentId ≠ b := fun h => hne h.symm
  constructor
  · simp [handleLockAcquire, hb, hnid, hdoc, hAb]
  · intro id2 a2 nid2 ttl2
    cases a2 with
    | none => rfl
    | some a =>
      by_cases ha : a = ""
      · simp [handleLockAcquire, ha]
      · cases hd2 : st.docLock with
        | none => simp [handleLockAcquire, ha, hd2]
        | some d2 =>
          by_cases h3 : d2.agentId = a
          · simp [handleLockAcquire, ha, hd2, h3]
          · simp [handleLockAcquire, ha, hd2, h3]

/-- C1 witness: in stC1 the doc lock is held by A, and agent B requesting
node n is denied with reason doc-locked while the node table keeps only
the previously granted lock of A. -/
theorem C1_witness :
    stC1.docLock = some ⟨"A", 5, 60000⟩
    ∧ handleLockAcquire stC1 1 10 (some "r") (some "B") (some "node") (some "n") none
        = ({ stC1 with connData := [(1, "B")] },
           [(1, Frame.lockDenied (some "r") "node" (some "n") "A" (some "doc-locked"))]) :=
  ⟨rfl,
   (C1_doc_lock_preempts_node_acquire stC1 1 10 (some "r") "A" "B" "n" none
      ⟨"A", 5, 60000⟩ rfl rfl (by decide) (by decide) (by decide)).1⟩

/-- C9 counterexample: agent a already holds node lock n, but because agent
b holds the doc lock, the re-acquire by the holder a is answered
lock:denied (doc-locked), not lock:acquired — the claim as stated fails.
The state stC9cex is reachable: a acquires n, then b acquires the doc lock
(the doc branch never inspects the node table). -/
theorem C9_counterexample :
    handleLockAcquire stC9cex 1 7 none (some "a") (some "node") (some "n") none
      = (stC9cex,
         [(1, Frame.lockDenied none "node" (some "n") "b" (some "doc-locked"))]) := by
  decide

/-- C9 amended: a lock:acquire by the agent that already holds the lock is
granted again with lock:acquired, keeps the same holder and refreshes
acquiredAt to the time of the re-acquire — for the doc lock
unconditionally, and for a node lock provided the doc lock is free or held
by that same agent. -/
theorem C9_reentrant_refresh (st : ServerState) (conn : ConnId) (now : Nat)
    (id : Option String) (ttl : Option Nat) :
    (∀ (dl : LockEntry) (a : String), st.docLock = some dl → dl.agentId = a → a ≠ "" →
      handleLockAcquire st conn now id (some a) (some "doc") none ttl
        = ({ st with
              connData := tagIfUnset st.connData conn a,
              docLock := some ⟨a, now, effectiveTtl ttl⟩ },
           [(conn, Frame.lockAcquired id "doc" none)]))
    ∧ (∀ (nid : String) (e : LockEntry) (a : String),
        lookupA st.nodeLocks nid = some e → e.agentId = a → a ≠ "" → nid ≠ "" →
        (st.docLock = none ∨ ∃ dl, st.docLock = some dl ∧ dl.agentId = a) →
        handleLockAcquire st conn now id (some a) (some "node") (some nid) ttl
          = ({ st with
                connData := tagIfUnset st.connData conn a,
                nodeLocks := setA st.nodeLocks nid ⟨a, now, effectiveTtl ttl⟩ },
             [(conn, Frame.lockAcquired id "node" (some nid))])) := by
  constructor
  · intro dl a hdoc ha h0
    subst ha
    simp [handleLockAcquire, h0, hdoc]
  · intro nid e a hlook ha h0 hnid hdocok
    subst ha
    rcases hdocok with hd | ⟨dl, hd, hda⟩
    · simp [handleLockAcquire, acquireNode, h0, hnid, hd, hlook]
    · simp [handleLockAcquire, acquireNode, h0, hnid, hd, hda, hlook]

/-- C9 witness: in stC9w agent a holds both locks; re-acquiring each at
time 10 is granted and refreshes acquiredAt to 10 with the default TTL. -/
theorem C9_witness :
    handleLockAcquire stC9w 1 10 none (some "a") (some "doc") none none
      = ({ stC9w with
            connData := [(1, "a")],
            docLock := some ⟨"a", 10, 60000⟩ },
         [(1, Frame.lockAcquired none "doc" none)])
    ∧ handleLockAcquire stC9w 1 10 none (some "a") (some "node") (some "n") none
      = ({ stC9w with
            connData := [(1, "a")],
            nodeLocks := [("n", ⟨"a", 10, 60000⟩)] },
         [(1, Frame.lockAcquired none "node" (some "n"))]) :=
  ⟨(C9_reentrant_refresh stC9w 1 10 none none).1 ⟨"a", 2, 60000⟩ "a" rfl rfl
      (by decide),
   (C9_reentrant_refresh stC9w 1 10 none none).2 "n" ⟨"a", 3, 60000⟩ "a" rfl rfl
      (by decide) (by decide) (Or.inr ⟨⟨"a", 2, 60000⟩, rfl, rfl⟩)⟩

/-- C10: a falsy ttl field — absent (or null, both parsed as none) or the
number 0 — yields a grant whose TTL is the default 60000 ms, for both the
doc lock and a node lock; in particular ttl 0 does not produce an
immediately expired grant. -/
theorem C10_falsy_ttl_defaults
    (st : ServerState) (conn : ConnId) (now : Nat) (id : Option String)
    (a nid : String) (ttl : Option Nat)
    (ha : a ≠ "") (hnid : nid ≠ "") (hdoc : st.docLock = none)
    (hfree : lookupA st.nodeLocks nid = none)
    (httl : ttl = none ∨ ttl = some 0) :
    effectiveTtl ttl = DEFAULT_LOCK_TTL_MS
    ∧ DEFAULT_LOCK_TTL_MS = 60000
    ∧ (handleLockAcquire st conn now id (some a) (some "doc") none ttl).1.docLock
        = some ⟨a, now, DEFAULT_LOCK_TTL_MS⟩
    ∧ lookupA (handleLockAcquire st conn now id (some a) (some "node")
          (some nid) ttl).1.nodeLocks nid
        = some ⟨a, now, DEFAULT_LOCK_TTL_MS⟩ := by
  have heff : effectiveTtl ttl = DEFAULT_LOCK_TTL_MS := by
    rcases httl with h | h <;> simp [h, effectiveTtl]
  refine ⟨heff, rfl, ?_, ?_⟩
  · simp [handleLockAcquire, ha, hdoc, heff]
  · rw [acquire_free_step st conn now id a nid ttl ha hnid hdoc hfree, heff]
    exact lookupA_setA_self _ _ _

/-- C10 witness: from the empty state, acquiring with ttl 0 grants entries
carrying the default 60000 ms TTL. -/
theorem C10_witness :
    effectiveTtl (some 0) = 60000
    ∧ (handleLockAcquire stEmpty 1 10 none (some "a") (some "doc") none
          (some 0)).1.docLock = some ⟨"a", 10, 60000⟩
    ∧ lookupA (handleLockAcquire stEmpty 1 10 none (some "a") (some "node")
          (some "n") (some 0)).1.nodeLocks "n" = some ⟨"a", 10, 60000⟩ :=
  have h := C10_falsy_ttl_defaults stEmpty 1 10 none "a" "n" (some 0)
    (by decide) (by decide) rfl rfl (Or.inr rfl)
  ⟨h.1, h.2.2.1, h.2.2.2⟩

/-- C4: for a lock:release frame of either lockType, the sender is always
answered lock:released and never an error; only the current holder removes
the entry — a release by a non-holder, or of a key that is not held, is a
no-op on the whole state. -/
theorem C4_release_semantics (st : ServerState) (conn : ConnId)
    (id agentId nodeId : Option String) :
    ((handleLockRelease st conn id agentId (some "doc") nodeId).2
        = [(conn, Frame.lockReleased id "doc" none)]
     ∧ ((∀ dl, st.docLock = some dl → agentId ≠ some dl.agentId) →
          handleLockRelease st conn id agentId (some "doc") nodeId
            = (st, [(conn, Frame.lockReleased id "doc" none)]))
     ∧ (∀ dl, st.docLock = some dl → agentId = some dl.agentId →
          (handleLockRelease st conn id agentId (some "doc") nodeId).1
            = { st with docLock := none }))
    ∧ ((handleLockRelease st conn id agentId (some "node") nodeId).2
        = [(conn, Frame.lockReleased id "node" nodeId)]
     ∧ ((∀ nid e, nodeId = some nid → lookupA st.nodeLocks nid = some e →
            agentId ≠ some e.agentId) →
          handleLockRelease st conn id agentId (some "node") nodeId
            = (st, [(conn, Frame.lockReleased id "node" nodeId)]))
     ∧ (∀ nid e, nodeId = some nid → lookupA st.nodeLocks nid = some e →
          agentId = some e.agentId →
          (handleLockRelease st conn id agentId (some "node") nodeId).1
            = { st with nodeLocks := delA st.nodeLocks nid })) := by
  refine ⟨⟨?_, ?_, ?_⟩, ?_, ?_, ?_⟩
  · cases hd : st.docLock with
    | none => simp [handleLockRelease, hd]
    | some dl =>
      by_cases h : agentId = some dl.agentId <;> simp [handleLockRelease, hd, h]
  · intro hno
    cases hd : st.docLock with
    | none => simp [handleLockRelease, hd]
    | some dl => simp [handleLockRelease, hd, hno dl hd]
  · intro dl hd h
    simp [handleLockRelease, hd, h]
  · cases nodeId with
    | none => simp [handleLockRelease]
    | some nid =>
      cases hl : lookupA st.nodeLocks nid with
      | none => simp [handleLockRelease, hl]
      | some e =>
        by_cases h : agentId = some e.agentId <;> simp [handleLockRelease, hl, h]
  · intro hno
    cases nodeId with
    | none => simp [handleLockRelease]
    | some nid =>
      cases hl : lookupA st.nodeLocks nid with
      | none => simp [handleLockRelease, hl]
      | some e => simp [handleLockRelease, hl, hno nid e rfl hl]
  · intro nid e hn hl h
    subst hn
    simp [handleLockRelease, hl, h]

/-- C4 witness: in stC4w agent a holds node lock n and the doc lock; a
release by non-holder b is answered lock:released with the state unchanged,
while the holder release actually removes the node entry. -/
theorem C4_witness :
    handleLockRelease stC4w 2 none (some "b") (some "node") (some "n")
      = (stC4w, [(2, Frame.lockReleased none "node" (some "n"))])
    ∧ handleLockRelease stC4w 2 none (some "b") (some "doc") none
      = (stC4w, [(2, Frame.lockReleased none "doc" none)])
    ∧ (handleLockRelease stC4w 1 none (some "a") (some "node") (some "n")).1
      = { stC4w with nodeLocks := [] } :=
  ⟨(C4_release_semantics stC4w 2 none (some "b") (some "n")).2.2.1
      (by
        intro nid e hn hl
        injection hn with hn2
        subst hn2
        injection hl with hl2
        subst hl2
        decide),
   (C4_release_semantics stC4w 2 none (some "b") none).1.2.1
      (by
        intro dl hd
        injection hd with hd2
        subst hd2
        decide),
   (C4_release_semantics stC4w 1 none (some "a") (some "n")).2.2.2 "n"
      ⟨"a", 0, 60000⟩ rfl rfl rfl⟩

/-- C2: when two distinct agents acquire the same node id in turn (node
free, doc lock free), the first receives lock:acquired, the second
lock:denied naming the first as holder; after the holder releases, the
second agent's repeated acquire receives lock:acquired. -/
theorem C2_node_lock_contention_cycle
    (st : ServerState) (c1 c2 : ConnId) (t1 t2 t4 : Nat)
    (id1 id2 id3 id4 : Option String) (a1 a2 nid : String)
    (ttl1 ttl2 ttl4 : Option Nat)
    (hfree : lookupA st.nodeLocks nid = none) (hdoc : st.docLock = none)
    (h1 : a1 ≠ "") (h2 : a2 ≠ "") (hne : a1 ≠ a2) (hnid : nid ≠ "") :
    (handleLockAcquire st c1 t1 id1 (some a1) (some "node") (some nid) ttl1).2
      = [(c1, Frame.lockAcquired id1 "node" (some nid))]
    ∧ (handleLockAcquire
        (handleLockAcquire st c1 t1 id1 (some a1) (some "node") (some nid) ttl1).1
        c2 t2 id2 (some a2) (some "node") (some nid) ttl2).2
      = [(c2, Frame.lockDenied id2 "node" (some nid) a1 none)]
    ∧ (handleLockRelease
        (handleLockAcquire
          (handleLockAcquire st c1 t1 id1 (some a1) (some "node") (some nid) ttl1).1
          c2 t2 id2 (some a2) (some "node") (some nid) ttl2).1
        c1 id3 (some a1) (some "node") (some nid)).2
      = [(c1, Frame.lockReleased id3 "node" (some nid))]
    ∧ (handleLockAcquire
        (handleLockRelease
          (handleLockAcquire
            (handleLockAcquire st c1 t1 id1 (some a1) (some "node") (some nid) ttl1).1
            c2 t2 id2 (some a2) (some "node") (some nid) ttl2).1
          c1 id3 (some a1) (some "node") (some nid)).1
        c2 t4 id4 (some a2) (some "node") (some nid) ttl4).2
      = [(c2, Frame.lockAcquired id4 "node" (some nid))] := by
  have e1 := acquire_free_step st c1 t1 id1 a1 nid ttl1 h1 hnid hdoc hfree
  have hdoc1 : ({ st with
      connData := tagIfUnset st.connData c1 a1,
      nodeLocks := setA st.nodeLocks nid ⟨a1, t1, effectiveTtl ttl1⟩ } :
        ServerState).docLock = none := hdoc
  have hlk1 : lookupA ({ st with
      connData := tagIfUnset st.connData c1 a1,
      nodeLocks := setA st.nodeLocks nid ⟨a1, t1, effectiveTtl ttl1⟩ } :
        ServerState).nodeLocks nid = some ⟨a1, t1, effectiveTtl ttl1⟩ :=
    lookupA_setA_self _ _ _
  have e2 := acquire_held_step { st with
      connData := tagIfUnset st.connData c1 a1,
      nodeLocks := setA st.nodeLocks nid ⟨a1, t1, effectiveTtl ttl1⟩ }
    c2 t2 id2 a2 a1 nid ttl2 ⟨a1, t1, effectiveTtl ttl1⟩ h2 hnid hdoc1 hlk1 rfl hne
  have hlk2 : lookupA ({ { st with
      connData := tagIfUnset st.connData c1 a1,
      nodeLocks := setA st.nodeLocks nid ⟨a1, t1, effectiveTtl ttl1⟩ } with
        connData := tagIfUnset (tagIfUnset st.connData c1 a1) c2 a2 } :
          ServerState).nodeLocks nid = some ⟨a1, t1, effectiveTtl ttl1⟩ := hlk1
  have e3 := release_holder_step { { st with
      connData := tagIfUnset st.connData c1 a1,
      nodeLocks := setA st.nodeLocks nid ⟨a1, t1, effectiveTtl ttl1⟩ } with
        connData := tagIfUnset (tagIfUnset st.connData c1 a1) c2 a2 }
    c1 id3 a1 nid ⟨a1, t1, effectiveTtl ttl1⟩ hlk2 rfl
  have hdoc3 : ({ { { st with
      connData := tagIfUnset st.connData c1 a1,
      nodeLocks := setA st.nodeLocks nid ⟨a1, t1, effectiveTtl ttl1⟩ } with
        connData := tagIfUnset (tagIfUnset st.connData c1 a1) c2 a2 } with
          nodeLocks := delA (setA st.nodeLocks nid ⟨a1, t1, effectiveTtl ttl1⟩) nid } :
            ServerState).docLock = none := hdoc
  have hlk3 : lookupA ({ { { st with
      connData := tagIfUnset st.connData c1 a1,
      nodeLocks := setA st.nodeLocks nid ⟨a1, t1, effectiveTtl ttl1⟩ } with
        connData := tagIfUnset (tagIfUnset st.connData c1 a1) c2 a2 } with
          nodeLocks := delA (setA st.nodeLocks nid ⟨a1, t1, effectiveTtl ttl1⟩) nid } :
            ServerState).nodeLocks nid = none := by
    show lookupA (delA (setA st.nodeLocks nid ⟨a1, t1, effectiveTtl ttl1⟩) nid) nid
      = none
    rw [delA_setA_of_none st.nodeLocks nid _ hfree]
    exact hfree
  have e4 := acquire_free_step { { { st with
      connData := tagIfUnset st.connData c1 a1,
      nodeLocks := setA st.nodeLocks nid ⟨a1, t1, effectiveTtl ttl1⟩ } with
        connData := tagIfUnset (tagIfUnset st.connData c1 a1) c2 a2 } with
          nodeLocks := delA (setA st.nodeLocks nid ⟨a1, t1, effectiveTtl ttl1⟩) nid }
    c2 t4 id4 a2 nid ttl4 h2 hnid hdoc3 hlk3
  refine ⟨?_, ?_, ?_, ?_⟩
  · simp only [e1]
  · simp only [e1, e2]
  · simp only [e1, e2, e3]
  · simp only [e1, e2, e3, e4]

/-- C2 witness: the full acquire, deny, release, retry cycle on node n
between agents x and y starting from the empty broker state. -/
theorem C2_witness :
    (handleLockAcquire stEmpty 1 10 none (some "x") (some "node") (some "n") none).2
      = [(1, Frame.lockAcquired none "node" (some "n"))]
    ∧ (handleLockAcquire
        (handleLockAcquire stEmpty 1 10 none (some "x") (some "node") (some "n") none).1
        2 20 none (some "y") (some "node") (some "n") none).2
      = [(2, Frame.lockDenied none "node" (some "n") "x" none)]
    ∧ (handleLockRelease
        (handleLockAcquire
          (handleLockAcquire stEmpty 1 10 none (some "x") (some "node") (some "n") none).1
          2 20 none (some "y") (some "node") (some "n") none).1
        1 none (some "x") (some "node") (some "n")).2
      = [(1, Frame.lockReleased none "node" (some "n"))]
    ∧ (handleLockAcquire
        (handleLockRelease
          (handleLockAcquire
            (handleLockAcquire stEmpty 1 10 none (some "x") (some "node") (some "n") none).1
            2 20 none (some "y") (some "node") (some "n") none).1
          1 none (some "x") (some "node") (some "n")).1
        2 40 none (some "y") (some "node") (some "n") none).2
      = [(2, Frame.lockAcquired none "node" (some "n"))] :=
  C2_node_lock_contention_cycle stEmpty 1 2 10 20 40 none none none none
    "x" "y" "n" none none none rfl rfl (by decide) (by decide) (by decide)
    (by decide)

/-- Lookup in the node table after the sweep: exactly the entries strictly
older than their TTL disappear (for tables with distinct keys, the shape
every reachable table has). -/
theorem sweep_lookup (l : List (String × LockEntry)) (now : Nat) (k : String)
    (hnd : (l.map Prod.fst).Nodup) :
    lookupA (l.filter (fun p => ¬ (now - p.2.acquiredAt > p.2.ttl))) k
      = match lookupA l k with
        | some e => if now - e.acquiredAt > e.ttl then none else some e
        | none => none := by
  induction l with
  | nil => rfl
  | cons hd tl ih =>
    obtain ⟨k1, v1⟩ := hd
    simp only [List.map_cons, List.nodup_cons] at hnd
    have hstep : ((k1, v1) :: tl).filter (fun p => ¬ (now - p.2.acquiredAt > p.2.ttl))
        = if now - v1.acquiredAt > v1.ttl
            then tl.filter (fun p => ¬ (now - p.2.acquiredAt > p.2.ttl))
            else (k1, v1) :: tl.filter (fun p => ¬ (now - p.2.acquiredAt > p.2.ttl)) := by
      by_cases hq : now - v1.acquiredAt > v1.ttl
      · rw [List.filter_cons, if_neg (by simp [hq]), if_pos hq]
      · rw [List.filter_cons, if_pos (by simp [hq]), if_neg hq]
    rw [hstep]
    by_cases hq : now - v1.acquiredAt > v1.ttl
    · rw [if_pos hq]
      by_cases hk : k1 = k
      · subst hk
        have hnone : lookupA
            (tl.filter (fun p => ¬ (now - p.2.acquiredAt > p.2.ttl))) k1 = none :=
          lookupA_eq_none_of_keys _ _ (fun p hp hc =>
            hnd.1 (hc ▸ List.mem_map_of_mem Prod.fst (List.mem_of_mem_filter hp)))
        have hl : lookupA ((k1, v1) :: tl) k1 = some v1 := by
          simp [lookupA]
        rw [hnone, hl]
        show (none : Option LockEntry)
          = if now - v1.acquiredAt > v1.ttl then none else some v1
        rw [if_pos hq]
      · have hl : lookupA ((k1, v1) :: tl) k = lookupA tl k := by
          simp [lookupA, hk]
        rw [hl, ih hnd.2]
    · rw [if_neg hq]
      by_cases hk : k1 = k
      · subst hk
        have hl1 : lookupA
            ((k1, v1) :: tl.filter (fun p => ¬ (now - p.2.acquiredAt > p.2.ttl))) k1
            = some v1 := by
          simp [lookupA]
        have hl2 : lookupA ((k1, v1) :: tl) k1 = some v1 := by
          simp [lookupA]
        rw [hl1, hl2]
        show some v1 = if now - v1.acquiredAt > v1.ttl then none else some v1
        rw [if_neg hq]
      · have hl1 : lookupA
            ((k1, v1) :: tl.filter (fun p => ¬ (now - p.2.acquiredAt > p.2.ttl))) k
            = lookupA (tl.filter (fun p => ¬ (now - p.2.acquiredAt > p.2.ttl))) k := by
          simp [lookupA, hk]
        have hl2 : lookupA ((k1, v1) :: tl) k = lookupA tl k := by
          simp [lookupA, hk]
        rw [hl1, hl2, ih hnd.2]

/-- C5: the sweep removes exactly the held entries with now minus
acquiredAt strictly greater than ttl, node table and doc lock alike; and a
lock:acquire from another agent against an expired-but-not-yet-swept entry
is still denied — request handlers never reclaim expired grants. -/
theorem C5_expiry_only_by_sweep (st : ServerState) (now : Nat)
    (hnd : (st.nodeLocks.map Prod.fst).Nodup) :
    (∀ nid, lookupA (sweep st now).nodeLocks nid
        = match lookupA st.nodeLocks nid with
          | some e => if now - e.acquiredAt > e.ttl then none else some e
          | none => none)
    ∧ ((sweep st now).docLock
        = match st.docLock with
          | some dl => if now - dl.acquiredAt > dl.ttl then none else some dl
          | none => none)
    ∧ (∀ (conn : ConnId) (id : Option String) (a b nid : String)
          (e : LockEntry) (ttlReq : Option Nat),
        lookupA st.nodeLocks nid = some e → e.agentId = b → b ≠ a → a ≠ "" →
        nid ≠ "" → st.docLock = none → now - e.acquiredAt > e.ttl →
        handleLockAcquire st conn now id (some a) (some "node") (some nid) ttlReq
          = ({ st with connData := tagIfUnset st.connData conn a },
             [(conn, Frame.lockDenied id "node" (some nid) b none)]))
    ∧ (∀ (conn : ConnId) (id : Option String) (a : String)
          (ttlReq : Option Nat) (dl : LockEntry),
        st.docLock = some dl → dl.agentId ≠ a → a ≠ "" →
        now - dl.acquiredAt > dl.ttl →
        handleLockAcquire st conn now id (some a) (some "doc") none ttlReq
          = ({ st with connData := tagIfUnset st.connData conn a },
             [(conn, Frame.lockDenied id "doc" none dl.agentId none)])) := by
  refine ⟨fun nid => sweep_lookup st.nodeLocks now nid hnd, rfl, ?_, ?_⟩
  · intro conn id a b nid e ttlReq hl hb hba ha hnid hdoc hexp
    exact acquire_held_step st conn now id a b nid ttlReq e ha hnid hdoc hl hb hba
  · intro conn id a ttlReq dl hd hne ha hexp
    exact acquire_doc_held_step st conn now id a ttlReq dl ha hd hne

/-- C5 witness: at time 100 the entries of stC5w and stC5doc are long
expired; the sweep frees them, yet an acquire by agent a before the sweep
is still denied with heldBy b. -/
theorem C5_witness :
    (stC5w.nodeLocks.map Prod.fst).Nodup
    ∧ lookupA (sweep stC5w 100).nodeLocks "n" = none
    ∧ handleLockAcquire stC5w 1 100 none (some "a") (some "node") (some "n") none
        = ({ stC5w with connData := [(1, "a")] },
           [(1, Frame.lockDenied none "node" (some "n") "b" none)])
    ∧ handleLockAcquire stC5doc 1 100 none (some "a") (some "doc") none none
        = ({ stC5doc with connData := [(1, "a")] },
           [(1, Frame.lockDenied none "doc" none "b" none)]) := by
  have h := C5_expiry_only_by_sweep stC5w 100 (by decide)
  have h2 := C5_expiry_only_by_sweep stC5doc 100 (by decide)
  exact ⟨by decide, h.1 "n",
    h.2.2.1 1 none "a" "b" "n" ⟨"b", 0, 10⟩ none rfl rfl (by decide) (by decide)
      (by decide) rfl (by decide),
    h2.2.2.2 1 none "a" none ⟨"b", 0, 10⟩ rfl (by decide) (by decide) (by decide)⟩

/-- The close fallback on an empty matched list releases the locks of the
truthy tagged agentId. -/
theorem closeFallback_tag_release (st : ServerState) (cd : List (ConnId × String))
    (conn : ConnId) (aid : String) (htag : lookupA cd conn = some aid)
    (hne : aid ≠ "") :
    closeFallback st cd conn [] = releaseAgentLocks st aid := by
  simp [closeFallback, htag, hne]

/-- C3 counterexample: in the reachable state stC3cex (see its docstring
for the registration-overwrite trace), connection 1 is tagged with agentId
c and c holds node lock n; yet after connection 1 closes the lock survives,
because the close handler matches registry entries by connection identity,
finds entry b, and skips the tagged-agentId fallback. -/
theorem C3_counterexample :
    lookupA stC3cex.connData 1 = some "c"
    ∧ lookupA (handleClose stC3cex 1).1.nodeLocks "n" = some ⟨"c", 4, 60000⟩ := by
  decide

/-- C3 amended: after a connection closes, no lock is held by any agentId
whose registry entry pointed at that connection, and each such entry is
deleted with an agent:disconnected notice to every open member of the
administrative channel; if no registry entry pointed at the connection, no
lock is held by the connection tagged agentId either; and the connection
is removed from every channel member set. -/
theorem C3_close_releases_connection_locks (st : ServerState) (conn : ConnId) :
    (∀ (aid : String) (info : AgentInfo), (aid, info) ∈ st.agents → info.ws = conn →
        lockFreeFor (handleClose st conn).1 aid
        ∧ (∀ c, c ∈ bridgeRecipients (removeFromChannels st.channels conn) st.openConns →
            (c, Frame.agentDisconnected aid) ∈ (handleClose st conn).2))
    ∧ ((∀ p ∈ st.agents, p.2.ws ≠ conn) →
        ∀ aid, lookupA st.connData conn = some aid → aid ≠ "" →
          lockFreeFor (handleClose st conn).1 aid)
    ∧ (∀ p ∈ (handleClose st conn).1.agents, p.2.ws ≠ conn)
    ∧ (∀ ch ms, (ch, ms) ∈ (handleClose st conn).1.channels → conn ∉ ms) := by
  have hfst : (handleClose st conn).1
      = closeFallback
          (((st.agents.filter (fun p => p.2.ws = conn)).map (fun p => p.1)).foldl
            releaseAgentLocks
            { st with
                channels := removeFromChannels st.channels conn,
                agents := st.agents.filter (fun p => p.2.ws ≠ conn),
                openConns := st.openConns.filter (fun c => c ≠ conn) })
          st.connData conn
          ((st.agents.filter (fun p => p.2.ws = conn)).map (fun p => p.1)) := rfl
  have hsnd : (handleClose st conn).2
      = ((st.agents.filter (fun p => p.2.ws = conn)).map (fun p => p.1)).flatMap
          (fun aid =>
            (bridgeRecipients (removeFromChannels st.channels conn) st.openConns).map
              (fun c => (c, Frame.agentDisconnected aid))) := rfl
  refine ⟨?_, ?_, ?_, ?_⟩
  · intro aid info hmem hws
    have hmid : aid ∈ (st.agents.filter (fun p => p.2.ws = conn)).map (fun p => p.1) :=
      List.mem_map_of_mem _ (List.mem_filter.2 ⟨hmem, by simpa using hws⟩)
    constructor
    · rw [hfst]
      exact closeFallback_mono _ _ _ _ _ (foldl_release_free _ _ _ hmid)
    · intro c hc
      rw [hsnd]
      exact List.mem_flatMap.2 ⟨aid, hmid, List.mem_map_of_mem _ hc⟩
  · intro hnone aid htag hne
    have hfil : st.agents.filter (fun p => p.2.ws = conn) = [] :=
      List.filter_eq_nil_iff.2 (fun p hp => by simpa using hnone p hp)
    rw [hfst, hfil]
    simp only [List.map_nil, List.foldl_nil]
    rw [closeFallback_tag_release _ _ _ _ htag hne]
    exact releaseAgentLocks_free _ _
  · have h3 : (handleClose st conn).1.agents
        = st.agents.filter (fun p => p.2.ws ≠ conn) := by
      rw [hfst, closeFallback_agents, foldl_release_agents]
    intro p hp
    rw [h3] at hp
    have := (List.mem_filter.1 hp).2
    simpa using this
  · have h4 : (handleClose st conn).1.channels
        = removeFromChannels st.channels conn := by
      rw [hfst, closeFallback_channels, foldl_release_channels]
    intro ch ms hmem
    rw [h4] at hmem
    obtain ⟨q, hq, heq⟩ := List.mem_map.1 hmem
    injection heq with heq1 heq2
    subst heq2
    intro hc
    have := (List.mem_filter.1 hc).2
    simp at this

/-- C3 witness: in stC3w, agent a is registered to connection 1 and holds
node lock n and the doc lock; after connection 1 closes, a holds no lock,
the open bridge member 2 is notified agent:disconnected, no remaining
registry entry points at connection 1, and connection 1 is in no channel. -/
theorem C3_witness :
    lockFreeFor (handleClose stC3w 1).1 "a"
    ∧ (2, Frame.agentDisconnected "a") ∈ (handleClose stC3w 1).2
    ∧ (∀ p ∈ (handleClose stC3w 1).1.agents, p.2.ws ≠ 1)
    ∧ (∀ ch ms, (ch, ms) ∈ (handleClose stC3w 1).1.channels → 1 ∉ ms) := by
  have h := C3_close_releases_connection_locks stC3w 1
  have h1 := h.1 "a" ⟨"a", "ch", "read-write", 0, 1⟩ (by decide) rfl
  exact ⟨h1.1, h1.2 2 (by decide), h.2.2.1, h.2.2.2⟩

/-- The state stC3cex of the C3 counterexample is reachable from the empty
broker: connection 1 registers b then c, connection 2 re-registers c and
closes (deleting the overwritten entry), then connection 1 acquires node
lock n as c. -/
theorem stC3cex_reachable :
    (handleLockAcquire
      (handleClose
        (handleRegister
          (handleRegister
            (handleRegister ⟨[], [], [], none, [], [1, 2]⟩ 1 0
              (some "b") (some "ch") (some "read-write")).1
            1 1 (some "c") (some "ch") (some "read-write")).1
          2 2 (some "c") (some "ch") (some "read-write")).1
        2).1
      1 4 none (some "c") (some "node") (some "n") none).1 = stC3cex := by
  decide

/-- C6 (code bug): when connection 1 closes while sharing channel ch with
open connection 2, the websocket.close handler removes it from the member
set but sends no frame at all — connection 2 is never told a user left.
The leave notification exists only in the ws.close method override
installed by handleConnection, a path the runtime does not invoke on
disconnect, as the second conjunct shows. -/
theorem C6_close_does_not_notify :
    handleClose stC6 1
      = ({ stC6 with channels := [("ch", [2])], openConns := [2] }, [])
    ∧ wsCloseOverride stC6 1
      = ({ stC6 with channels := [("ch", [2])] },
         [(2, Frame.system "A user has left the channel" (some "ch"))]) := by
  exact ⟨by decide, by decide⟩

/-- C7 counterexample: connection 1 has not joined channel ch (whose only
member is connection 2); its progress_update frame is dropped silently —
the reply list is empty, with no precondition-violation error frame. -/
theorem C7_counterexample :
    handleMessage stC7 1 0
      { type := "progress_update", channel := some "ch", id := some "req",
        message := some "p" }
      = (stC7, []) := by
  decide

/-- C7 amended: progress_update has the same membership precondition as
broadcast for relaying — the payload reaches every other open member only
when the sender has joined the channel — but a sender that has not joined
receives no reply at all: the frame is silently dropped, with no relay and
no error frame. -/
theorem C7_progress_membership (st : ServerState) (conn : ConnId)
    (ch : String) (id payload : Option String) (hch : ch ≠ "") :
    (lookupA st.channels ch = none →
      handleProgressUpdate st conn (some ch) id payload = (st, []))
    ∧ (∀ members, lookupA st.channels ch = some members → conn ∉ members →
        handleProgressUpdate st conn (some ch) id payload = (st, []))
    ∧ (∀ members, lookupA st.channels ch = some members → conn ∈ members →
        (handleProgressUpdate st conn (some ch) id payload).1 = st
        ∧ (∀ c, c ∈ members → c ≠ conn → c ∈ st.openConns →
            (c, Frame.progressUpdate payload id ch)
              ∈ (handleProgressUpdate st conn (some ch) id payload).2)
        ∧ (∀ f ∈ (handleProgressUpdate st conn (some ch) id payload).2,
            f.1 ≠ conn)) := by
  refine ⟨?_, ?_, ?_⟩
  · intro h
    simp [handleProgressUpdate, hch, h]
  · intro members hm hnm
    simp [handleProgressUpdate, hch, hm, hnm]
  · intro members hm hmem
    have hrun : handleProgressUpdate st conn (some ch) id payload
        = (st, (members.filter (fun c => c ≠ conn ∧ c ∈ st.openConns)).map
            (fun c => (c, Frame.progressUpdate payload id ch))) := by
      simp [handleProgressUpdate, hch, hm, hmem]
    rw [hrun]
    refine ⟨rfl, ?_, ?_⟩
    · intro c hc hne hopen
      exact List.mem_map_of_mem _ (List.mem_filter.2 ⟨hc, by simp [hne, hopen]⟩)
    · intro f hf
      obtain ⟨c, hcf, rfl⟩ := List.mem_map.1 hf
      have hcc := (List.mem_filter.1 hcf).2
      simp only [decide_eq_true_eq] at hcc
      exact hcc.1

/-- C7 witness: with connections 1 and 2 both members of ch, a
progress_update from 1 leaves the state unchanged and is relayed to the
open peer 2; from the non-member state stC7 it is silently dropped. -/
theorem C7_witness :
    (handleProgressUpdate stC7w 1 (some "ch") (some "i") (some "p")).1 = stC7w
    ∧ (2, Frame.progressUpdate (some "p") (some "i") "ch")
        ∈ (handleProgressUpdate stC7w 1 (some "ch") (some "i") (some "p")).2
    ∧ handleProgressUpdate stC7 1 (some "ch") (some "i") (some "p")
        = (stC7, []) := by
  have h := (C7_progress_membership stC7w 1 "ch" (some "i") (some "p")
    (by decide)).2.2 [1, 2] rfl (by decide)
  have h2 := (C7_progress_membership stC7 1 "ch" (some "i") (some "p")
    (by decide)).2.1 [2] rfl (by decide)
  exact ⟨h.1, h.2.1 2 (by decide) (by decide) (by decide), h2⟩

/-- C8 counterexample: a frame whose top-level type is unknown is not
answered with an error frame echoing the unknown value — the message
handler falls through silently with no reply and no state change. -/
theorem C8_counterexample :
    handleMessage stEmpty 1 0 { type := "frobnicate" } = (stEmpty, []) := by
  decide

/-- C8 amended: a lock:acquire or lock:release with an unknown lockType is
answered with an error frame echoing the unknown value (the acquire path
additionally tags the connection with the supplied agentId); a frame whose
top-level type is unknown is silently dropped with no reply and no state
change. -/
theorem C8_unknown_types (st : ServerState) (conn : ConnId) (now : Nat) :
    (∀ m : InMsg,
        m.type ∉ (["join", "agent:register", "lock:acquire", "lock:release",
          "directed", "message", "progress_update"] : List String) →
        handleMessage st conn now m = (st, []))
    ∧ (∀ (id nodeId : Option String) (a : String) (ttl : Option Nat)
          (lt : Option String), a ≠ "" → lt ≠ some "doc" → lt ≠ some "node" →
        handleLockAcquire st conn now id (some a) lt nodeId ttl
          = ({ st with connData := tagIfUnset st.connData conn a },
             [(conn, Frame.errorF id ("Unknown lockType: " ++ optStr lt))]))
    ∧ (∀ (id agentId nodeId lt : Option String),
        lt ≠ some "doc" → lt ≠ some "node" →
        handleLockRelease st conn id agentId lt nodeId
          = (st, [(conn, Frame.errorF id ("Unknown lockType: " ++ optStr lt))])) := by
  refine ⟨?_, ?_, ?_⟩
  · intro m hm
    simp only [List.mem_cons, List.not_mem_nil, or_false, not_or] at hm
    obtain ⟨n1, n2, n3, n4, n5, n6, n7⟩ := hm
    simp [handleMessage, n1, n2, n3, n4, n5, n6, n7]
  · intro id nodeId a ttl lt ha h1 h2
    simp [handleLockAcquire, ha, h1, h2]
  · intro id agentId nodeId lt h1 h2
    simp [handleLockRelease, h1, h2]

/-- C8 witness: an unknown lockType weird in lock:acquire and an absent
lockType in lock:release are answered with the echoing error frame, while
an unknown top-level type nonsense is silently dropped. -/
theorem C8_witness :
    handleLockAcquire stEmpty 1 0 (some "i") (some "a") (some "weird") none none
      = ({ stEmpty with connData := [(1, "a")] },
         [(1, Frame.errorF (some "i") "Unknown lockType: weird")])
    ∧ handleLockRelease stEmpty 1 (some "i") (some "a") none none
      = (stEmpty, [(1, Frame.errorF (some "i") "Unknown lockType: undefined")])
    ∧ handleMessage stEmpty 1 0 { type := "nonsense" } = (stEmpty, []) := by
  have h := C8_unknown_types stEmpty 1 0
  refine ⟨?_, ?_, h.1 { type := "nonsense" } (by decide)⟩
  · exact h.2.1 (some "i") none "a" none (some "weird") (by decide) (by decide)
      (by decide)
  · exact h.2.2 (some "i") (some "a") none none (by decide) (by decide)

end AutoFig
